import Mathlib

/-!
# COSMICi server — verification of the node-session / run-coordination core

This file gives a shallow embedding, in Lean 4, of the parts of the COSMICi
server (a Python code base) that the specification's testable claims are
about, together with theorems settling those claims.

Strings coming off the wire are embedded at the byte level as `List Nat`
(each element a byte value `< 256`); Python text operations used by the
code (`str.strip`, `str.split`, `str.replace`, `int(s, 16)`, `"%02x"`)
are translated byte-for-byte.  Mode names, status strings and IP/MAC
strings that the code only ever compares for equality are embedded as
Lean `String`s.  Timestamps (`timestamp.CoarseTimeStamp`) are opaque to
all the logic under study and are embedded as `Nat`.
-/

deriving instance DecidableEq for Except

namespace COSMICi

/-! ## nmea.py — NMEA sentence framing and checksums

`calcCRC`, `isNMEA`, `getCRC`, `stripNMEA`, `makeNMEA` translated from
`src/server/src/nmea.py`.  Python raises exceptions; we return them in an
`Except`: `BadChecksum` is the module's own exception class, `ValueError`
is what `int(last2, 16)` raises inside `getCRC` when the two checksum
characters do not parse as a hexadecimal integer.
-/

/-- The byte value of the `'$'` character. -/
def dollarByte : Nat := 36

/-- The byte value of the `'*'` character. -/
def starByte : Nat := 42

/-- `calcCRC` from nmea.py: XOR of all byte values of the bare string. -/
def calcCRC (bareStr : List Nat) : Nat := bareStr.foldl Nat.xor 0

/-- `isNMEA` from nmea.py: nonempty and starting with `'$'`. -/
def isNMEA (line : List Nat) : Bool :=
  match line with
  | [] => false
  | c :: _ => c == dollarByte

/-- The bytes Python's `int(...)`/`str.strip()` treat as whitespace
(space, tab, LF, VT, FF, CR). -/
def isPySpace (b : Nat) : Bool :=
  b == 32 || b == 9 || b == 10 || b == 11 || b == 12 || b == 13

/-- Value of a single hexadecimal digit character (Python `int(·, 16)`
accepts both lowercase and uppercase letters). -/
def hexVal (b : Nat) : Option Nat :=
  if 48 ≤ b ∧ b ≤ 57 then some (b - 48)
  else if 97 ≤ b ∧ b ≤ 102 then some (b - 87)
  else if 65 ≤ b ∧ b ≤ 70 then some (b - 55)
  else none

/-- Strip Python whitespace from both ends of a byte string. -/
def pyStrip (s : List Nat) : List Nat :=
  ((s.dropWhile isPySpace).reverse.dropWhile isPySpace).reverse

/-- Python `int(s, 16)` on a string of exactly two characters, as used by
`getCRC` on `sent[-2:]`: whitespace at either end is ignored, an optional
sign is allowed before a digit, otherwise both characters must be hex
digits.  (`"0x"` alone, underscores, and every other two-character
combination raise `ValueError`, i.e. return `none` here.) -/
def pyIntHex2 (c1 c2 : Nat) : Option Int :=
  match pyStrip [c1, c2] with
  | [c] => (hexVal c).map Int.ofNat
  | [43, c] => (hexVal c).map Int.ofNat
  | [45, c] => (hexVal c).map (fun v => -(v : Int))
  | [a, b] =>
    match hexVal a, hexVal b with
    | some v1, some v2 => some ((16 * v1 + v2 : Nat) : Int)
    | _, _ => none
  | _ => none

/-- `getCRC` from nmea.py.  `.ok none` means "no checksum present"
(length `< 3`, or third character from the end is not `'*'`);
`.error ()` is the `ValueError` raised by `int(last2, 16)`. -/
def getCRC (sent : List Nat) : Except Unit (Option Int) :=
  match sent.reverse with
  | c2 :: c1 :: a :: _ =>
    if a ≠ starByte then .ok none
    else
      match pyIntHex2 c1 c2 with
      | some v => .ok (some v)
      | none => .error ()
  | _ => .ok none

/-- The exceptions that can escape `stripNMEA`. -/
inductive PyErr
  | badChecksum
  | valueError
deriving DecidableEq, Repr

/-- `stripNMEA` from nmea.py: strip the leading `'$'`; if a checksum
field is present, verify it against `calcCRC` of the bare line, raising
`BadChecksum` on mismatch (and propagating `ValueError` from `getCRC`). -/
def stripNMEA (line : List Nat) : Except PyErr (List Nat) :=
  if ¬ isNMEA line then .ok line
  else
    let l := line.tail
    match getCRC l with
    | .error _ => .error .valueError
    | .ok none => .ok l
    | .ok (some crc) =>
      let bare := l.take (l.length - 3)
      if (calcCRC bare : Int) ≠ crc then .error .badChecksum
      else .ok bare

/-- `"%02x" % n`: lowercase hexadecimal, left-padded with `'0'` to at
least two characters, as a byte string. -/
def hex02 (n : Nat) : List Nat :=
  let ds := (Nat.toDigits 16 n).map Char.toNat
  if ds.length < 2 then List.replicate (2 - ds.length) 48 ++ ds else ds

/-- `makeNMEA` from nmea.py: prepend `'$'` and, when `makeChecksum` is
true, append `'*'` and the two-digit lowercase hex rendering of the CRC. -/
def makeNMEA (line : List Nat) (makeChecksum : Bool) : List Nat :=
  let line' := if makeChecksum then line ++ (starByte :: hex02 (calcCRC line)) else line
  dollarByte :: line'

/-! ### Supporting lemmas for the checksum claims -/

/-- Boolean check that `hex02 n` is a two-character field parsing back to `n`. -/
def hex02OK (n : Nat) : Bool :=
  match hex02 n with
  | [a, b] => pyIntHex2 a b == some (n : Int)
  | _ => false

set_option maxRecDepth 8192 in
lemma hex02_ok : ∀ n, n < 256 → hex02OK n = true := by decide

lemma hex02_parse (n : Nat) (h : n < 256) :
    ∃ a b, hex02 n = [a, b] ∧ pyIntHex2 a b = some (n : Int) := by
  have hok := hex02_ok n h
  unfold hex02OK at hok
  rcases hh : hex02 n with _ | ⟨a, _ | ⟨b, _ | ⟨c, tl⟩⟩⟩ <;> rw [hh] at hok <;>
    simp only [beq_iff_eq] at hok
  · exact absurd hok (by simp)
  · exact absurd hok (by simp)
  · exact ⟨a, b, rfl, hok⟩
  · exact absurd hok (by simp)

lemma foldl_xor_lt : ∀ (s : List Nat) (acc : Nat),
    (∀ b ∈ s, b < 256) → acc < 256 → s.foldl Nat.xor acc < 256
  | [], _, _, hacc => hacc
  | x :: xs, acc, h, hacc => by
    simp only [List.foldl_cons]
    refine foldl_xor_lt xs (Nat.xor acc x) (fun b hb => h b (by simp [hb])) ?_
    have hx : x < 2 ^ 8 := by have := h x (by simp); norm_num at this ⊢; exact this
    have hacc' : acc < 2 ^ 8 := by norm_num at hacc ⊢; exact hacc
    have := Nat.xor_lt_two_pow hacc' hx
    norm_num at this ⊢
    exact this

lemma calcCRC_lt (s : List Nat) (h : ∀ b ∈ s, b < 256) : calcCRC s < 256 :=
  foldl_xor_lt s 0 h (by norm_num)

lemma getCRC_append (s : List Nat) (c1 c2 : Nat) :
    getCRC (s ++ [starByte, c1, c2]) =
      match pyIntHex2 c1 c2 with
      | some v => .ok (some v)
      | none => .error () := by
  unfold getCRC
  rw [show (s ++ [starByte, c1, c2]).reverse = c2 :: c1 :: starByte :: s.reverse from by simp]
  rfl

lemma stripNMEA_framed (s : List Nat) (c1 c2 : Nat) :
    stripNMEA (dollarByte :: (s ++ [starByte, c1, c2])) =
      match pyIntHex2 c1 c2 with
      | some v =>
          if (calcCRC s : Int) ≠ v then .error .badChecksum else .ok s
      | none => .error .valueError := by
  unfold stripNMEA
  have h1 : isNMEA (dollarByte :: (s ++ [starByte, c1, c2])) = true := by
    simp [isNMEA]
  rw [if_neg (by simp [h1])]
  simp only [List.tail_cons, getCRC_append]
  have hlen : (s ++ [starByte, c1, c2]).length - 3 = s.length := by
    simp
  have htake : (s ++ [starByte, c1, c2]).take ((s ++ [starByte, c1, c2]).length - 3) = s := by
    rw [hlen, List.take_left]
  rcases pyIntHex2 c1 c2 with _ | v
  · rfl
  · simp only [htake]

/-- C7.  The round-trip half of the claim holds: for byte strings without
`'$'`/`'*'`, `stripNMEA (makeNMEA s true) = s`.  The detection half holds
exactly when the altered two-character checksum field no longer parses
(under Python `int(·, 16)` semantics) to the CRC value of `s`: any such
alteration is detected as `BadChecksum` or `ValueError`.  (The claim's
stronger "any single bit-flip is detected" is refuted by
`C7_counterexample_bitflip` below: a flip can produce a field that parses
to the same value, e.g. a lowercase hex letter flipped to uppercase.) -/
theorem C7_checksum_roundtrip (s : List Nat) (h256 : ∀ b ∈ s, b < 256)
    (hnoDollar : dollarByte ∉ s) (hnoStar : starByte ∉ s) :
    stripNMEA (makeNMEA s true) = .ok s ∧
    ∀ c1 c2 : Nat, pyIntHex2 c1 c2 ≠ some ((calcCRC s : Nat) : Int) →
      ∃ e, stripNMEA (dollarByte :: (s ++ [starByte, c1, c2])) = .error e := by
  obtain ⟨a, b, hab, hparse⟩ := hex02_parse (calcCRC s) (calcCRC_lt s h256)
  constructor
  · have hmk : makeNMEA s true = dollarByte :: (s ++ [starByte, a, b]) := by
      simp [makeNMEA, hab]
    rw [hmk, stripNMEA_framed, hparse]
    simp
  · intro c1 c2 hne
    rw [stripNMEA_framed]
    rcases hp : pyIntHex2 c1 c2 with _ | v
    · exact ⟨.valueError, rfl⟩
    · have hvne : (calcCRC s : Int) ≠ v := by
        intro hEq
        exact hne (by rw [hp, ← hEq])
      refine ⟨.badChecksum, ?_⟩
      show (if (calcCRC s : Int) ≠ v then (Except.error PyErr.badChecksum : Except PyErr (List Nat))
            else .ok s) = .error .badChecksum
      rw [if_pos hvne]

/-- C7 witness: the round-trip and the detection of a value-changing
corruption, at the concrete one-byte string `"A"`. -/
theorem C7_checksum_roundtrip_witness :
    stripNMEA (makeNMEA [65] true) = .ok [65] ∧
    ∃ e, stripNMEA (dollarByte :: ([65] ++ [starByte, 122, 122])) = .error e :=
  ⟨(C7_checksum_roundtrip [65] (by decide) (by decide) (by decide)).1,
   (C7_checksum_roundtrip [65] (by decide) (by decide) (by decide)).2 122 122 (by decide)⟩

/-- C7 counterexample.  `makeNMEA ":" true = "$:*3a"`; flipping the single
bit `0x20` in the final checksum character turns `'a'` (97) into `'A'`
(65), yet `stripNMEA` silently accepts the altered sentence and returns
`":"` as if it were valid, because Python's `int(·, 16)` parses uppercase
and lowercase hex alike.  This refutes "a single bit-flip in the checksum
field causes a detected failure". -/
theorem C7_counterexample_bitflip :
    makeNMEA [58] true = [36, 58, 42, 51, 97] ∧
    Nat.xor 97 32 = 65 ∧
    stripNMEA [36, 58, 42, 51, 65] = .ok [58] := by decide

/-! ## model.py — `SensorHost._parseMsg`

The host-message parse step (`src/server/src/model.py`, `_parseMsg`):
strip whitespace, run `nmea.stripNMEA` catching **only** `BadChecksum`
(an escaping `ValueError` from a malformed checksum field is *not*
caught there, nor in `_handleMsg`/`sentMessage` above it), then split the
bare sentence into comma-separated words, with the `PDMEHEADER` and
`CON_PULSE` special cases.  `unsplit` (from the absent `utils.py`) is a
join-with-delimiter, used here as `List.intercalate`. -/

/-- Boolean "does `s` start with `pre`" on byte strings. -/
def listStartsWith : List Nat → List Nat → Bool
  | [], _ => true
  | _ :: _, [] => false
  | p :: ps, c :: cs => p == c && listStartsWith ps cs

/-- Python `str.replace(pat, rep)`: replace all non-overlapping
occurrences, scanning left to right (`pat` nonempty). -/
def pyReplace (pat rep : List Nat) : List Nat → List Nat
  | [] => []
  | c :: rest =>
    if h : pat ≠ [] ∧ listStartsWith pat (c :: rest) then
      rep ++ pyReplace pat rep ((c :: rest).drop pat.length)
    else
      c :: pyReplace pat rep rest
termination_by s => s.length
decreasing_by
  · simp only [List.length_drop, List.length_cons]
    have : 1 ≤ pat.length := by
      cases pat with
      | nil => exact absurd rfl h.1
      | cons _ _ => simp
    omega
  · simp

/-- The bytes of `"PDMEHEADER"`. -/
def pdmeheaderBytes : List Nat := [80, 68, 77, 69, 72, 69, 65, 68, 69, 82]

/-- The bytes of `"CON_PULSE"`. -/
def conPulseBytes : List Nat := [67, 79, 78, 95, 80, 85, 76, 83, 69]

/-- Why `_parseMsg` dropped a line (each case is one log call in the
source: empty message, checksum failure, empty after NMEA stripping). -/
inductive DropReason
  | emptyMsg
  | badChecksum
  | emptyAfterNMEA
deriving DecidableEq, Repr

/-- Result of `SensorHost._parseMsg`: the word list, a logged-and-dropped
line, or an exception escaping the parse step (uncaught by it). -/
inductive ParseResult
  | ok (words : List (List Nat))
  | dropped (why : DropReason)
  | uncaught (e : PyErr)
deriving DecidableEq, Repr

/-- `SensorHost._parseMsg` from model.py.  Only `nmea.BadChecksum` is
caught (`except nmea.BadChecksum`); a `ValueError` raised by
`int(last2, 16)` inside `getCRC` escapes as `.uncaught .valueError`. -/
def parseMsg (data : List Nat) : ParseResult :=
  let msgStr := pyStrip data
  if msgStr = [] then .dropped .emptyMsg
  else
    match stripNMEA msgStr with
    | .error .badChecksum => .dropped .badChecksum
    | .error .valueError => .uncaught .valueError
    | .ok stripped =>
      if stripped = [] then .dropped .emptyAfterNMEA
      else
        let msgStr2 := if listStartsWith pdmeheaderBytes stripped
                       then pyReplace [58, 32] [44] stripped else stripped
        let msgWords := msgStr2.splitOn 44
        let msgWords2 := if listStartsWith conPulseBytes msgStr2
                         then msgWords.take 7 ++ [List.intercalate [44] (msgWords.drop 7)]
                         else msgWords
        .ok msgWords2

/-- C8.  The failing input: the line `"$AB*zz"` carries a two-character
checksum field that is not hexadecimal, so `int(last2, 16)` raises
`ValueError`, which `_parseMsg` does **not** catch (it catches only
`BadChecksum`) — the exception escapes the parse step instead of the line
being dropped and logged.  For contrast, a checksum field that *does*
parse but mismatches (`"$AB*00"`: CRC of `"AB"` is `0x03`) is confined:
the line is dropped with reason `badChecksum`, and an ordinary valid line
is parsed into words. -/
theorem C8_nonhex_checksum_escapes :
    parseMsg [36, 65, 66, 42, 122, 122] = .uncaught .valueError ∧
    parseMsg [36, 65, 66, 42, 48, 48] = .dropped .badChecksum ∧
    parseMsg [65, 44, 66] = .ok [[65], [66]] := by decide

/-! ## wifi.py — `WiFi_Module`

State and operations of the Wi-Fi module model (`src/server/src/wifi.py`).
Connection handles are "presumed live iff non-null" in the source, so the
three handles are embedded as an `Option` (for the two bridge servers,
which carry a port) and a `Bool` (for the main connection).  Port
constants are from `ports.py`. -/

/-- `ports.LASER_PORT`: base port for AUXIO bridge connections. -/
def LASER_PORT : Nat := 52737

/-- `ports.MESON_PORT`: base port for UART bridge connections. -/
def MESON_PORT : Nat := 63766

/-- A `bridge.BridgeServer`: listens on `basePort + nodeID`; the UART one
additionally gets a `_UART_ConnHandler` attached before starting. -/
structure BridgeSrv where
  port : Nat
  kind : String
  started : Bool
  hasConnHandler : Bool
deriving DecidableEq, Repr

/-- The mutable state of a `WiFi_Module` instance. -/
structure WifiRec where
  nodenum : Nat
  ipaddr : String
  macaddr : Option String
  status : String
  onAt : Option Nat
  lastSeen : Option Nat
  mainConn : Bool
  auxioServer : Option BridgeSrv
  uartServer : Option BridgeSrv
  bridge_mode : String
deriving DecidableEq, Repr

namespace WifiRec

/-- `WiFi_Module.__init__`. -/
def init (num : Nat) (ip : String) : WifiRec :=
  { nodenum := num, ipaddr := ip, macaddr := none, status := "UNSEEN",
    onAt := none, lastSeen := none, mainConn := false,
    auxioServer := none, uartServer := none, bridge_mode := "UNKNOWN" }

/-- `WiFi_Module.isAt`. -/
def isAt (w : WifiRec) (ip : String) : WifiRec := { w with ipaddr := ip }

/-- `WiFi_Module.hasMac`. -/
def hasMac (w : WifiRec) (mac : String) : WifiRec := { w with macaddr := some mac }

/-- `WiFi_Module.isOn`. -/
def isOn (w : WifiRec) : WifiRec := { w with status := "ON" }

/-- `WiFi_Module._setupAuxioServer`: create and start the AUXIO bridge
server on `LASER_PORT + nodenum` only if there is none yet. -/
def setupAuxioServer (w : WifiRec) : WifiRec :=
  if w.auxioServer = none then
    { w with auxioServer := some (⟨LASER_PORT + w.nodenum, "auxio", true, false⟩ : BridgeSrv) }
  else w

/-- `WiFi_Module._setupUartServer`: create the UART bridge server on
`MESON_PORT + nodenum`, attach the `_UART_ConnHandler`, and start it,
only if there is none yet. -/
def setupUartServer (w : WifiRec) : WifiRec :=
  if w.uartServer = none then
    { w with uartServer := some (⟨MESON_PORT + w.nodenum, "uart", true, true⟩ : BridgeSrv) }
  else w

/-- `WiFi_Module._setupBridgeServers`. -/
def setupBridgeServers (w : WifiRec) : WifiRec :=
  setupUartServer (setupAuxioServer w)

/-- `WiFi_Module.turnedOnAt`. -/
def turnedOnAt (w : WifiRec) (when : Nat) : WifiRec :=
  setupBridgeServers { w.isOn with onAt := some when, lastSeen := some when }

/-- `WiFi_Module.bridgeMode_is`: stores the given mode string verbatim
("presently we do no error checking to enforce" the allowed values). -/
def bridgeMode_is (w : WifiRec) (bmstr : String) : WifiRec :=
  { w with bridge_mode := bmstr }

/-- `WiFi_Module._uartSrvConnected`. -/
def uartSrvConnected (w : WifiRec) : Bool := w.uartServer.isSome

/-- `WiFi_Module._auxioSrvConnected`. -/
def auxioSrvConnected (w : WifiRec) : Bool := w.auxioServer.isSome

/-- `WiFi_Module._mainSrvConnected`. -/
def mainSrvConnected (w : WifiRec) : Bool := w.mainConn

end WifiRec

/-- Where (or whether) an outbound line was sent: the three send paths of
`WiFi_Module` and its two logged error outcomes. -/
inductive SendAction
  | toUartSrv (line : String)
  | toAuxioSrv (line : String)
  | toMainSrv (line : String)
  | errNoConnection
  | errBadBridgeMode
deriving DecidableEq, Repr

namespace WifiRec

/-- `WiFi_Module.sendScript`: Trefoil-with-open-UART goes over the UART
server; otherwise best of AUXIO, then MAIN. -/
def sendScript (w : WifiRec) (line : String) : SendAction :=
  if w.bridge_mode = "TREFOIL" ∧ w.uartSrvConnected then .toUartSrv line
  else if w.auxioSrvConnected then .toAuxioSrv line
  else if w.mainSrvConnected then .toMainSrv line
  else .errNoConnection

/-- `WiFi_Module.sendHost`: in UART/FLYOVER modes with an open UART
bridge, send the raw line directly; in DEFAULT/TREFOIL/NONE modes,
package it as `"HOST <line>"` and hand it to `sendScript`; otherwise
(UNKNOWN/UNSUPPORTED) log an error and give up. -/
def sendHost (w : WifiRec) (line : String) : SendAction :=
  if (w.bridge_mode = "UART" ∨ w.bridge_mode = "FLYOVER") ∧ w.uartSrvConnected then
    .toUartSrv line
  else if w.bridge_mode = "DEFAULT" ∨ w.bridge_mode = "TREFOIL" ∨ w.bridge_mode = "NONE" then
    w.sendScript ("HOST " ++ line)
  else .errBadBridgeMode

end WifiRec

/-! ## model.py — `SensorNet` / `SensorNode`

Registry state and the operations `nodeWithIP`, `nodeAt`, `verifyNode`,
`nodeOn`, and the node-level `reloc`/`isOn`/`turnOn`/`sawAt`/`setMac`.
The Python `dict` keyed by node id is embedded as an insertion-ordered
association list; the logging side effects that the claims refer to are
recorded as a list of `LogEvt` values, one constructor per log call site
(a multi-line warning in the source is one event here). -/

/-- The mutable state of a `SensorNode` instance. -/
structure NodeRec where
  nodenum : Nat
  ipaddr : String
  macaddr : Option String
  status : String
  onAt : Option Nat
  lastSeen : Option Nat
  wifi : WifiRec
deriving DecidableEq, Repr

namespace NodeRec

/-- `SensorNode.__init__` (the node-specific logger is an external
collaborator and is not part of the state). -/
def init (num : Nat) (ip : String) : NodeRec :=
  { nodenum := num, ipaddr := ip, macaddr := none, status := "UNSEEN",
    onAt := none, lastSeen := none, wifi := WifiRec.init num ip }

/-- `SensorNode.reloc`. -/
def reloc (nd : NodeRec) (ip : String) : NodeRec :=
  { nd with ipaddr := ip, wifi := nd.wifi.isAt ip }

/-- `SensorNode.isOn`. -/
def isOn (nd : NodeRec) : NodeRec := { nd with status := "ON" }

/-- The if/elif pair in `SensorNode.sawAt` that clears an AWOL marking
back to its base status. -/
def escalateStatus (s : String) : String :=
  if s = "ON_AWOL" then "ON"
  else if s = "RUNNING_AWOL" then "RUNNING"
  else s

/-- `SensorNode.sawAt`: update last-seen time and clear any AWOL marking
back to its base status. -/
def sawAt (nd : NodeRec) (when : Nat) : NodeRec :=
  { nd with lastSeen := some when, status := escalateStatus nd.status }

/-- `SensorNode.setMac`. -/
def setMac (nd : NodeRec) (mac : String) : NodeRec :=
  { nd with macaddr := some mac, wifi := nd.wifi.hasMac mac }

/-- `SensorNode.turnOn`. -/
def turnOn (nd : NodeRec) (when : Nat) : NodeRec :=
  { nd.isOn with onAt := some when, lastSeen := some when,
                 wifi := nd.wifi.turnedOnAt when }

end NodeRec

/-- One constructor per logging call site in the embedded registry
operations (a consecutive run of log lines for one anomaly is a single
event). -/
inductive LogEvt
  | normalPoweredOnAgain (id : Nat) (ip : String)
  | warnNewIP (id : Nat) (ip : String)
  | warnIPInUse (otherId : Nat) (ip : String)
  | normalNewNode (id : Nat) (ip : String)
  | warnNoSuchNode (id : Nat) (ip : String)
  | warnIPMismatch (id : Nat) (fromIp onFileIp : String)
  | warnNotYetSeen (id : Nat) (ip : String)
  | normalMacIs (id : Nat) (mac : String)
  | normalTurnedOn (id : Nat) (when : Nat)
  | normalBridgeModeIs (id : Nat) (bm : String)
deriving DecidableEq, Repr

/-- The state of the `SensorNet` registry, plus the log it has emitted. -/
structure SensorNetSt where
  nodes : List (Nat × NodeRec)
  log : List LogEvt
deriving DecidableEq, Repr

/-- Lookup in the node dictionary (`id in self.nodes` / `self.nodes[id]`). -/
def lookupNode : List (Nat × NodeRec) → Nat → Option NodeRec
  | [], _ => none
  | (k, nd) :: rest, id => if k = id then some nd else lookupNode rest id

/-- Assignment `self.nodes[id] = nd` (replace if present, else append,
matching Python dict insertion order). -/
def setNode : List (Nat × NodeRec) → Nat → NodeRec → List (Nat × NodeRec)
  | [], id, nd => [(id, nd)]
  | (k, x) :: rest, id, nd =>
    if k = id then (id, nd) :: rest else (k, x) :: setNode rest id nd

/-- `SensorNet.nodeWithIP`: first node id (in insertion order) whose
recorded IP equals `ip`. -/
def nodeWithIP : List (Nat × NodeRec) → String → Option Nat
  | [], _ => none
  | (k, nd) :: rest, ip => if nd.ipaddr = ip then some k else nodeWithIP rest ip

namespace SensorNetSt

/-- `SensorNet.nodeAt`: record that node `id` transmits from `ip`;
relocate (overwriting the stored IP) if it changed, create the node if
absent, warning if another node already uses that IP. -/
def nodeAt (st : SensorNetSt) (id : Nat) (ip : String) : SensorNetSt :=
  match lookupNode st.nodes id with
  | some nd =>
    if ip = nd.ipaddr then
      { st with log := st.log ++ [.normalPoweredOnAgain id ip] }
    else
      let warn2 : List LogEvt :=
        match nodeWithIP st.nodes ip with
        | some other => [.warnIPInUse other ip]
        | none => []
      { nodes := setNode st.nodes id (nd.reloc ip),
        log := st.log ++ [.warnNewIP id ip] ++ warn2 }
  | none =>
    let warn2 : List LogEvt :=
      match nodeWithIP st.nodes ip with
      | some other => [.warnIPInUse other ip]
      | none => []
    { nodes := setNode st.nodes id (NodeRec.init id ip),
      log := st.log ++ [.normalNewNode id ip] ++ warn2 }

/-- `SensorNet.verifyNode`: auto-create an unknown id with a warning;
warn (without overwriting the stored IP) if the IP differs; mark an
UNSEEN node ON with a warning; then `sawAt(when)`.  The two `none`
branches are unreachable (they mirror the `assert` in the source). -/
def verifyNode (st : SensorNetSt) (id : Nat) (ip : String) (when : Nat) : SensorNetSt :=
  let st1 :=
    match lookupNode st.nodes id with
    | none => nodeAt { st with log := st.log ++ [.warnNoSuchNode id ip] } id ip
    | some _ => st
  let st2 :=
    match lookupNode st1.nodes id with
    | none => st1
    | some nd =>
      if nd.ipaddr ≠ ip then
        { st1 with log := st1.log ++ [.warnIPMismatch id ip nd.ipaddr] }
      else if nd.status = "UNSEEN" then
        { nodes := setNode st1.nodes id nd.isOn,
          log := st1.log ++ [.warnNotYetSeen id ip] }
      else st1
  match lookupNode st2.nodes id with
  | none => st2
  | some nd => { st2 with nodes := setNode st2.nodes id (nd.sawAt when) }

/-- `SensorNet.nodeOn`: `nodeAt`, then `setMac`, then `turnOn` (which
sets up the bridge servers via the Wi-Fi module).  The `none` branches
are unreachable since `nodeAt` ensures the node is present. -/
def nodeOn (st : SensorNetSt) (num : Nat) (ip mac : String) (when : Nat) : SensorNetSt :=
  let st1 := nodeAt st num ip
  let st2 :=
    match lookupNode st1.nodes num with
    | none => st1
    | some nd =>
      { nodes := setNode st1.nodes num (nd.setMac mac),
        log := st1.log ++ [.normalMacIs num mac] }
  match lookupNode st2.nodes num with
  | none => st2
  | some nd =>
    { nodes := setNode st2.nodes num (nd.turnOn when),
      log := st2.log ++ [.normalTurnedOn num when] }

end SensorNetSt

/-! ## commands.py — `CommandHandler.handleBridgeMode`

The handler translates the wire mode name into the model's code via the
fixed table below, **but then passes the raw wire string** to
`bridgeMode_is`: in the source, `model_bm` is computed and never used
(`cis.sensorNet.nodes[arg_nodenum].wifi_module.bridgeMode_is(arg_bmstr)`). -/

/-- The wire-name → model-name translation table computed (into the local
`model_bm`) by `handleBridgeMode`. -/
def translateBridgeMode (wire : String) : String :=
  if wire = "NORMAL" then "DEFAULT"
  else if wire = "UART-ONLY" then "UART"
  else if wire = "NONE" ∨ wire = "TREFOIL" ∨ wire = "FLYOVER" then wire
  else "UNSUPPORTED"

/-- `CommandHandler.handleBridgeMode`, at the level of already-parsed
arguments: `verifyNode`, then store the **raw** wire mode string.  The
`none` branch is unreachable (`verifyNode` ensures presence). -/
def handleBridgeMode (st : SensorNetSt) (nodenum : Nat) (bmstr : String)
    (senderIp : String) (when : Nat) : SensorNetSt :=
  let st1 := st.verifyNode nodenum senderIp when
  match lookupNode st1.nodes nodenum with
  | none => st1
  | some nd =>
    { nodes := setNode st1.nodes nodenum { nd with wifi := nd.wifi.bridgeMode_is bmstr },
      log := st1.log ++ [.normalBridgeModeIs nodenum bmstr] }

/-! ### Supporting lemmas for the registry claims -/

lemma lookup_setNode_self (l : List (Nat × NodeRec)) (id : Nat) (nd : NodeRec) :
    lookupNode (setNode l id nd) id = some nd := by
  induction l with
  | nil => simp [setNode, lookupNode]
  | cons p rest ih =>
    obtain ⟨k, x⟩ := p
    by_cases h : k = id <;> simp [setNode, lookupNode, h, ih]

lemma setNode_setNode (l : List (Nat × NodeRec)) (id : Nat) (a b : NodeRec) :
    setNode (setNode l id a) id b = setNode l id b := by
  induction l with
  | nil => simp [setNode]
  | cons p rest ih =>
    obtain ⟨k, x⟩ := p
    by_cases h : k = id <;> simp [setNode, h, ih]

/-- Erase the turn-on/last-seen timestamps of a Wi-Fi module record. -/
def scrubWifi (w : WifiRec) : WifiRec := { w with onAt := none, lastSeen := none }

/-- Erase the turn-on/last-seen timestamps of a node record (including
its Wi-Fi submodule's). -/
def scrubNode (nd : NodeRec) : NodeRec :=
  { nd with onAt := none, lastSeen := none, wifi := scrubWifi nd.wifi }

/-- Erase all timestamps across the registry. -/
def scrubNodes (l : List (Nat × NodeRec)) : List (Nat × NodeRec) :=
  l.map (fun p => (p.1, scrubNode p.2))

lemma scrubNodes_setNode (l : List (Nat × NodeRec)) (id : Nat) (nd : NodeRec) :
    scrubNodes (setNode l id nd) = setNode (scrubNodes l) id (scrubNode nd) := by
  induction l with
  | nil => simp [setNode, scrubNodes]
  | cons p rest ih =>
    obtain ⟨k, x⟩ := p
    by_cases h : k = id <;> simp [setNode, scrubNodes, h] <;>
      simpa [scrubNodes] using ih

lemma nodeAt_nodes_lookup (st : SensorNetSt) (id : Nat) (ip : String) :
    ∃ nd1, lookupNode (st.nodeAt id ip).nodes id = some nd1 ∧ nd1.ipaddr = ip := by
  unfold SensorNetSt.nodeAt
  cases h : lookupNode st.nodes id with
  | some nd =>
    by_cases hip : ip = nd.ipaddr
    · exact ⟨nd, by simp [hip, h], hip.symm⟩
    · exact ⟨nd.reloc ip, by simp [hip, lookup_setNode_self], rfl⟩
  | none => exact ⟨NodeRec.init id ip, by simp [lookup_setNode_self], rfl⟩

lemma nodeAt_same_ip (st : SensorNetSt) (id : Nat) (ip : String) (nd : NodeRec)
    (h : lookupNode st.nodes id = some nd) (hip : nd.ipaddr = ip) :
    (st.nodeAt id ip).nodes = st.nodes := by
  have e1 : (ip = nd.ipaddr) = True := by simp [hip]
  simp only [SensorNetSt.nodeAt, h, e1, if_true]

lemma nodeOn_nodes (st : SensorNetSt) (num : Nat) (ip mac : String) (w : Nat)
    (nd1 : NodeRec) (h1 : lookupNode (st.nodeAt num ip).nodes num = some nd1) :
    (st.nodeOn num ip mac w).nodes =
      setNode (st.nodeAt num ip).nodes num ((nd1.setMac mac).turnOn w) := by
  simp only [SensorNetSt.nodeOn, h1, lookup_setNode_self, setNode_setNode]

lemma turnOn_setMac_ipaddr (nd : NodeRec) (mac : String) (w : Nat) :
    ((nd.setMac mac).turnOn w).ipaddr = nd.ipaddr := rfl

lemma scrub_turnOn_setMac_again (nd : NodeRec) (mac : String) (w1 w2 : Nat) :
    scrubNode (((((nd.setMac mac).turnOn w1)).setMac mac).turnOn w2)
      = scrubNode ((nd.setMac mac).turnOn w1) := by
  obtain ⟨n0, i0, m0, s0, o0, l0, wf⟩ := nd
  obtain ⟨wn, wi, wm, ws, wo, wl, wmc, wa, wu, wb⟩ := wf
  simp only [NodeRec.setMac, NodeRec.turnOn, NodeRec.isOn, WifiRec.hasMac,
    WifiRec.turnedOnAt, WifiRec.isOn, WifiRec.setupBridgeServers,
    WifiRec.setupAuxioServer, WifiRec.setupUartServer, scrubNode, scrubWifi]
  cases wa <;> cases wu <;> simp

/-! ### C9 — idempotence of `POWERED_ON` -/

/-- C9.  Applying `nodeOn` (the effect of a `POWERED_ON` command) twice
with the same node id, IP and MAC leaves the registry — node status,
stored IP and MAC, Wi-Fi module state, and the AUXIO/UART bridge-server
listeners — identical to applying it once, apart from the turn-on and
last-seen timestamps (which `scrubNodes` erases). -/
theorem C9_poweredOn_idempotent (st : SensorNetSt) (num : Nat) (ip mac : String)
    (w1 w2 : Nat) :
    scrubNodes ((st.nodeOn num ip mac w1).nodeOn num ip mac w2).nodes
      = scrubNodes (st.nodeOn num ip mac w1).nodes := by
  obtain ⟨nd1, h1, hip1⟩ := nodeAt_nodes_lookup st num ip
  have hfst := nodeOn_nodes st num ip mac w1 nd1 h1
  have hlookup : lookupNode (st.nodeOn num ip mac w1).nodes num
      = some ((nd1.setMac mac).turnOn w1) := by
    rw [hfst]; exact lookup_setNode_self _ _ _
  have hipA : ((nd1.setMac mac).turnOn w1).ipaddr = ip := by
    rw [turnOn_setMac_ipaddr]; exact hip1
  have h2 : ((st.nodeOn num ip mac w1).nodeAt num ip).nodes
      = (st.nodeOn num ip mac w1).nodes :=
    nodeAt_same_ip _ _ _ _ hlookup hipA
  have h2look : lookupNode ((st.nodeOn num ip mac w1).nodeAt num ip).nodes num
      = some ((nd1.setMac mac).turnOn w1) := by rw [h2]; exact hlookup
  have hsnd := nodeOn_nodes (st.nodeOn num ip mac w1) num ip mac w2 _ h2look
  rw [hsnd, h2, hfst, setNode_setNode, scrubNodes_setNode, scrubNodes_setNode,
    scrub_turnOn_setMac_again]

/-! ### C2 — `verifyNode` behavior -/

/-- A registry state used as concrete input in several theorems: node 1
registered at IP 10.0.0.1, status ON. -/
def c2Node : NodeRec := { NodeRec.init 1 "10.0.0.1" with status := "ON" }

/-- See `c2Node`. -/
def c2St : SensorNetSt := { nodes := [(1, c2Node)], log := [] }

/-- C2 counterexample.  `verifyNode` on node 1 from the *different* IP
10.0.0.2 leaves the stored IP at 10.0.0.1: unlike `recordSighting`
(`nodeAt`), the verify operation only logs the mismatch and does **not**
overwrite the stored IP, refuting the claim's last-writer-wins conjunct. -/
theorem C2_counterexample_no_overwrite :
    (lookupNode (c2St.verifyNode 1 "10.0.0.2" 7).nodes 1).map NodeRec.ipaddr
        = some "10.0.0.1" ∧
    ("10.0.0.1" : String) ≠ "10.0.0.2" ∧
    LogEvt.warnIPMismatch 1 "10.0.0.2" "10.0.0.1" ∈ (c2St.verifyNode 1 "10.0.0.2" 7).log := by
  decide

/-- C2 (amended).  For every `verifyNode(id, ip, when)` call: an unknown
`id` is auto-created with a warning rather than rejected; the session's
status is escalated out of any AWOL variant back to its base and its
last-seen time is set to `when`; and if the existing session's stored IP
differs from `ip`, the anomaly is logged but the stored IP is **kept**
(not overwritten — overwriting happens only in `recordSighting`/`nodeAt`). -/
theorem C2_verifyNode_behavior (st : SensorNetSt) (id : Nat) (ip : String) (when : Nat) :
    (lookupNode st.nodes id = none →
        LogEvt.warnNoSuchNode id ip ∈ (st.verifyNode id ip when).log ∧
        (lookupNode (st.verifyNode id ip when).nodes id).map NodeRec.ipaddr = some ip) ∧
    (∀ nd, lookupNode st.nodes id = some nd →
        ∃ nd', lookupNode (st.verifyNode id ip when).nodes id = some nd' ∧
          nd'.lastSeen = some when ∧
          nd'.status = NodeRec.escalateStatus
            (if nd.ipaddr = ip ∧ nd.status = "UNSEEN" then "ON" else nd.status) ∧
          (nd.ipaddr ≠ ip →
            nd'.ipaddr = nd.ipaddr ∧
            LogEvt.warnIPMismatch id ip nd.ipaddr ∈ (st.verifyNode id ip when).log)) := by
  constructor
  · intro hnone
    simp only [SensorNetSt.verifyNode, SensorNetSt.nodeAt, hnone]
    simp [lookup_setNode_self, setNode_setNode, NodeRec.init, NodeRec.isOn,
      NodeRec.sawAt]
  · intro nd hsome
    by_cases hip : nd.ipaddr = ip
    · by_cases hst : nd.status = "UNSEEN"
      · have e1 : (nd.ipaddr ≠ ip) = False := by simp [hip]
        have e2 : (nd.status = "UNSEEN") = True := by simp [hst]
        refine ⟨(nd.isOn).sawAt when, ?_⟩
        simp only [SensorNetSt.verifyNode, hsome, e1, e2, if_false, if_true,
          lookup_setNode_self, setNode_setNode]
        simp [NodeRec.sawAt, NodeRec.isOn, NodeRec.escalateStatus, hip, hst]
      · have e1 : (nd.ipaddr ≠ ip) = False := by simp [hip]
        have e2 : (nd.status = "UNSEEN") = False := by simp [hst]
        refine ⟨nd.sawAt when, ?_⟩
        simp only [SensorNetSt.verifyNode, hsome, e1, e2, if_false, if_true,
          lookup_setNode_self]
        simp [NodeRec.sawAt, hip, hst]
    · have e1 : (nd.ipaddr ≠ ip) = True := by simp [hip]
      refine ⟨nd.sawAt when, ?_⟩
      simp only [SensorNetSt.verifyNode, hsome, e1, if_true, lookup_setNode_self]
      simp [NodeRec.sawAt, hip]

/-- C2 witness: the amended theorem applied at `c2St`, node 1, from the
differing IP 10.0.0.2: the mismatch is logged (and, per the theorem, the
stored IP kept). -/
theorem C2_verifyNode_behavior_witness :
    LogEvt.warnIPMismatch 1 "10.0.0.2" "10.0.0.1" ∈ (c2St.verifyNode 1 "10.0.0.2" 7).log := by
  obtain ⟨nd', hl, hseen, hstat, himp⟩ :=
    (C2_verifyNode_behavior c2St 1 "10.0.0.2" 7).2 c2Node (by decide)
  have h2 := himp (by decide)
  simpa [c2Node, NodeRec.init] using h2.2

/-! ### C1 — BRIDGE_MODE stores the raw wire string -/

/-- Registry with node 1 known at 192.168.0.11, for the BRIDGE_MODE
scenario. -/
def c1St0 : SensorNetSt := { nodes := [(1, NodeRec.init 1 "192.168.0.11")], log := [] }

/-- State after `BRIDGE_MODE 1 UART-ONLY`. -/
def c1St1 : SensorNetSt := handleBridgeMode c1St0 1 "UART-ONLY" "192.168.0.11" 3

/-- State after `BRIDGE_MODE 1 UART-ONLY` then `BRIDGE_MODE 1 TREFOIL`. -/
def c1St2 : SensorNetSt := handleBridgeMode c1St1 1 "TREFOIL" "192.168.0.11" 4

/-- C1.  Evaluating the handler at the failing input `BRIDGE_MODE 1
UART-ONLY`: the translation table maps `UART-ONLY` to `UART`, but the
handler stores the raw wire string `UART-ONLY` (the computed `model_bm`
is never used), so node 1's stored mode never passes through `UART`.
After the subsequent `BRIDGE_MODE 1 TREFOIL` the stored mode is
`TREFOIL` only because that wire name happens to coincide with its
translation. -/
theorem C1_bridgeMode_stores_wire_string :
    translateBridgeMode "UART-ONLY" = "UART" ∧
    (lookupNode c1St1.nodes 1).map (fun nd => nd.wifi.bridge_mode) = some "UART-ONLY" ∧
    (lookupNode c1St1.nodes 1).map (fun nd => nd.wifi.bridge_mode) ≠ some "UART" ∧
    (lookupNode c1St2.nodes 1).map (fun nd => nd.wifi.bridge_mode) = some "TREFOIL" := by
  decide

/-! ### C3 — `sendHost` routing by bridge mode -/

/-- A Wi-Fi module in TREFOIL mode with an open UART side-channel (and an
open main connection). -/
def c3WifiTrefoil : WifiRec :=
  { WifiRec.init 0 "192.168.0.10" with
      bridge_mode := "TREFOIL",
      uartServer := some ⟨MESON_PORT, "uart", true, true⟩,
      mainConn := true }

/-- A Wi-Fi module in DEFAULT mode with all three channels open. -/
def c3WifiDefault : WifiRec :=
  { WifiRec.init 0 "192.168.0.10" with
      bridge_mode := "DEFAULT",
      auxioServer := some ⟨LASER_PORT, "auxio", true, false⟩,
      uartServer := some ⟨MESON_PORT, "uart", true, true⟩,
      mainConn := true }

/-- C3 counterexample.  With bridgeMode = TREFOIL and an open UART
side-channel, `sendHost` routes the line over the UART server **wrapped**
as `HOST <line>` (step 2a of the source's routing comment), not
unpackaged as the claim states; the unpackaged direct path is taken only
in UART/FLYOVER modes. -/
theorem C3_counterexample_trefoil_wrapped :
    c3WifiTrefoil.bridge_mode = "TREFOIL" ∧
    c3WifiTrefoil.uartSrvConnected = true ∧
    c3WifiTrefoil.sendHost "PING" = .toUartSrv "HOST PING" ∧
    c3WifiTrefoil.sendHost "PING" ≠ .toUartSrv "PING" := by decide

/-- C3 (amended).  In TREFOIL mode with an open UART side-channel,
`sendHost line` routes **`HOST <line>`**-wrapped over the UART
side-channel; in DEFAULT mode it routes the wrapped command over the best
available of AUXIO then the main connection, in that priority order, and
never uses the UART bridge. -/
theorem C3_sendHost_routing (w : WifiRec) (line : String) :
    (w.bridge_mode = "TREFOIL" → w.uartSrvConnected = true →
        w.sendHost line = .toUartSrv ("HOST " ++ line)) ∧
    (w.bridge_mode = "DEFAULT" →
        w.sendHost line =
          (if w.auxioSrvConnected then SendAction.toAuxioSrv ("HOST " ++ line)
           else if w.mainSrvConnected then SendAction.toMainSrv ("HOST " ++ line)
           else SendAction.errNoConnection)) := by
  constructor
  · intro hm hu
    simp [WifiRec.sendHost, WifiRec.sendScript, hm, hu]
  · intro hm
    simp [WifiRec.sendHost, WifiRec.sendScript, hm]

/-- C3 witness: the amended routing at the two concrete module states. -/
theorem C3_sendHost_routing_witness :
    c3WifiTrefoil.sendHost "PING" = .toUartSrv "HOST PING" ∧
    c3WifiDefault.sendHost "PING" = .toAuxioSrv "HOST PING" := by
  constructor
  · exact (C3_sendHost_routing c3WifiTrefoil "PING").1 (by decide) (by decide)
  · have h := (C3_sendHost_routing c3WifiDefault "PING").2 (by decide)
    rw [h]
    decide

/-! ## runmgr.py — `RunManager`

The run coordinator (`src/server/src/runmgr.py`) owns three `Flag`s and
a single Worker thread.  `flag.py` and `worklist.py` are not in the
source tree; they are modelled from the spec: a Flag is a boolean whose
`rise`/`fall` are idempotent and whose `waitUp` blocks its caller until
the boolean is true (spec §4.1), and a Worker drains an unbounded FIFO of
tasks strictly in submission order, one task at a time (spec §4.4), with
the initial task enqueued at construction (spec §4.8).

The coordinator is embedded as a transition system: external events (the
`yo_*` setters, each callable from any thread, any number of times) and
worker steps interleave arbitrarily; a worker step executes the task at
the head of the queue, except that a `waitUp` task blocks (the state is
unchanged) while its flag is down.  `everGoodRaised` is a history
variable recording whether `good_time` was ever raised; it affects no
transition. -/

/-- The tasks of the `RunManager` worker: its initial task and the six
tasks that `_queueStartupSequence` enqueues, in order. -/
inductive RMTask
  | queueStartupSequence
  | wait_CTU_ready
  | wait_FEDM_ready
  | wait_good_time
  | startTimekeeper
  | startDataCollector
  | start_CTU
deriving DecidableEq, Repr

/-- Modelled from the spec: the state of the `RunManager` — the three
input Flags (§4.8), the Worker's pending FIFO and the ordered record of
tasks it has completed (§4.4), plus the `everGoodRaised` history
variable. -/
structure RMState where
  ctu_ready : Bool
  fedm_ready : Bool
  good_time : Bool
  everGoodRaised : Bool
  queue : List RMTask
  fired : List RMTask
deriving DecidableEq, Repr

/-- External events: the four public setters of `RunManager`
(`yo_CTU_is_ready`, `yo_FEDM_is_ready`, `yo_GPS_time_is_good`,
`yo_GPS_time_is_nogood`) and one scheduling step of the coordinator's own
Worker thread. -/
inductive RMEvent
  | yoCTUReady
  | yoFEDMReady
  | yoTimeGood
  | yoTimeNoGood
  | workerStep
deriving DecidableEq, Repr

/-- The six startup tasks enqueued (in this order, atomically, by the one
execution of `_queueStartupSequence`). -/
def startupTasks : List RMTask :=
  [.wait_CTU_ready, .wait_FEDM_ready, .wait_good_time,
   .startTimekeeper, .startDataCollector, .start_CTU]

/-- `RunManager.__init__`: flags down, the initial task queued. -/
def rmInit : RMState :=
  { ctu_ready := false, fedm_ready := false, good_time := false,
    everGoodRaised := false, queue := [.queueStartupSequence], fired := [] }

/-- One step of the coordinator's Worker: run the head task.
`_queueStartupSequence` enqueues the six startup tasks; a `waitUp` task
completes only when its flag is up (otherwise the worker stays blocked in
it and the state is unchanged); the remaining tasks always complete. -/
def rmStep (s : RMState) : RMState :=
  match s.queue with
  | [] => s
  | t :: rest =>
    match t with
    | .queueStartupSequence =>
        { s with queue := rest ++ startupTasks, fired := s.fired ++ [t] }
    | .wait_CTU_ready =>
        if s.ctu_ready then { s with queue := rest, fired := s.fired ++ [t] } else s
    | .wait_FEDM_ready =>
        if s.fedm_ready then { s with queue := rest, fired := s.fired ++ [t] } else s
    | .wait_good_time =>
        if s.good_time then { s with queue := rest, fired := s.fired ++ [t] } else s
    | .startTimekeeper =>
        { s with queue := rest, fired := s.fired ++ [t] }
    | .startDataCollector =>
        { s with queue := rest, fired := s.fired ++ [t] }
    | .start_CTU =>
        { s with queue := rest, fired := s.fired ++ [t] }

/-- Apply one external event (flag rises/falls are idempotent). -/
def rmEvent (s : RMState) : RMEvent → RMState
  | .yoCTUReady => { s with ctu_ready := true }
  | .yoFEDMReady => { s with fedm_ready := true }
  | .yoTimeGood => { s with good_time := true, everGoodRaised := true }
  | .yoTimeNoGood => { s with good_time := false }
  | .workerStep => rmStep s

/-- Run a finite interleaving of events from a state. -/
def rmRun (s : RMState) (evs : List RMEvent) : RMState := evs.foldl rmEvent s

/-- The fixed execution order of the coordinator's tasks. -/
def rmOrder : List RMTask := .queueStartupSequence :: startupTasks

/-- The queue contents when `k` tasks have completed: before the initial
task runs, only the initial task is pending; afterwards, the pending
tasks are the matching suffix of the fixed order. -/
def rmQueueAt (k : Nat) : List RMTask :=
  if k = 0 then [.queueStartupSequence] else rmOrder.drop k

/-- The coordinator's invariant: its completed tasks are exactly a prefix
of the fixed order, its queue is the matching suffix, the two ready flags
are up once their wait tasks have completed, `good_time` was raised at
least once if `wait_good_time` completed, and the history variable is
faithful. -/
def rmInvK (k : Nat) (s : RMState) : Prop :=
  k ≤ 7 ∧ s.fired = rmOrder.take k ∧ s.queue = rmQueueAt k ∧
  (2 ≤ k → s.ctu_ready = true) ∧ (3 ≤ k → s.fedm_ready = true) ∧
  (4 ≤ k → s.everGoodRaised = true) ∧
  (s.good_time = true → s.everGoodRaised = true)

lemma rmInvK_init : rmInvK 0 rmInit := by
  refine ⟨by omega, ?_, ?_, ?_, ?_, ?_, ?_⟩ <;>
    simp [rmInit, rmOrder, rmQueueAt, startupTasks]

lemma rmStep_flags (s : RMState) :
    (rmStep s).ctu_ready = s.ctu_ready ∧ (rmStep s).fedm_ready = s.fedm_ready ∧
    (rmStep s).good_time = s.good_time ∧ (rmStep s).everGoodRaised = s.everGoodRaised := by
  obtain ⟨c, f, g, ev, q, fi⟩ := s
  rcases q with _ | ⟨t, rest⟩
  · exact ⟨rfl, rfl, rfl, rfl⟩
  · cases t <;> first
      | (simp only [rmStep]; split_ifs <;> simp)
      | simp [rmStep]

lemma rmInvK_event (k : Nat) (s : RMState) (h : rmInvK k s) (e : RMEvent) :
    ∃ k', rmInvK k' (rmEvent s e) := by
  obtain ⟨hk, hf, hq, h2, h3, h4, hg⟩ := h
  cases e with
  | yoCTUReady => exact ⟨k, hk, hf, hq, fun _ => rfl, h3, h4, hg⟩
  | yoFEDMReady => exact ⟨k, hk, hf, hq, h2, fun _ => rfl, h4, hg⟩
  | yoTimeGood => exact ⟨k, hk, hf, hq, h2, h3, fun _ => rfl, fun _ => rfl⟩
  | yoTimeNoGood => exact ⟨k, hk, hf, hq, h2, h3, h4, by simp [rmEvent]⟩
  | workerStep =>
    show ∃ k', rmInvK k' (rmStep s)
    obtain ⟨e1, e2, e3, e4⟩ := rmStep_flags s
    interval_cases k
    · refine ⟨1, by omega, ?_, ?_, fun h => absurd h (by omega), fun h => absurd h (by omega), fun h => absurd h (by omega), ?_⟩
      · simp [rmStep, hq, hf, rmOrder, rmQueueAt, startupTasks]
      · simp [rmStep, hq, rmOrder, rmQueueAt, startupTasks]
      · rw [e3, e4]; exact hg
    · by_cases hc : s.ctu_ready
      · refine ⟨2, by omega, ?_, ?_, ?_, fun h => absurd h (by omega), fun h => absurd h (by omega), ?_⟩
        · simp [rmStep, hq, hf, hc, rmOrder, rmQueueAt, startupTasks]
        · simp [rmStep, hq, hc, rmOrder, rmQueueAt, startupTasks]
        · rw [e1]; exact fun _ => hc
        · rw [e3, e4]; exact hg
      · have hs : rmStep s = s := by
          simp [rmStep, hq, rmOrder, rmQueueAt, startupTasks, hc]
        rw [hs]
        exact ⟨1, by omega, hf, hq, fun h => absurd h (by omega), fun h => absurd h (by omega), fun h => absurd h (by omega), hg⟩
    · by_cases hc : s.fedm_ready
      · refine ⟨3, by omega, ?_, ?_, ?_, ?_, fun h => absurd h (by omega), ?_⟩
        · simp [rmStep, hq, hf, hc, rmOrder, rmQueueAt, startupTasks]
        · simp [rmStep, hq, hc, rmOrder, rmQueueAt, startupTasks]
        · rw [e1]; exact fun _ => h2 (by omega)
        · rw [e2]; exact fun _ => hc
        · rw [e3, e4]; exact hg
      · have hs : rmStep s = s := by
          simp [rmStep, hq, rmOrder, rmQueueAt, startupTasks, hc]
        rw [hs]
        exact ⟨2, by omega, hf, hq, h2, fun h => absurd h (by omega), fun h => absurd h (by omega), hg⟩
    · by_cases hc : s.good_time
      · refine ⟨4, by omega, ?_, ?_, ?_, ?_, ?_, ?_⟩
        · simp [rmStep, hq, hf, hc, rmOrder, rmQueueAt, startupTasks]
        · simp [rmStep, hq, hc, rmOrder, rmQueueAt, startupTasks]
        · rw [e1]; exact fun _ => h2 (by omega)
        · rw [e2]; exact fun _ => h3 (by omega)
        · rw [e4]; exact fun _ => hg hc
        · rw [e3, e4]; exact hg
      · have hs : rmStep s = s := by
          simp [rmStep, hq, rmOrder, rmQueueAt, startupTasks, hc]
        rw [hs]
        exact ⟨3, by omega, hf, hq, h2, h3, fun h => absurd h (by omega), hg⟩
    · refine ⟨5, by omega, ?_, ?_, ?_, ?_, ?_, ?_⟩
      · simp [rmStep, hq, hf, rmOrder, rmQueueAt, startupTasks]
      · simp [rmStep, hq, rmOrder, rmQueueAt, startupTasks]
      · rw [e1]; exact fun _ => h2 (by omega)
      · rw [e2]; exact fun _ => h3 (by omega)
      · rw [e4]; exact fun _ => h4 (by omega)
      · rw [e3, e4]; exact hg
    · refine ⟨6, by omega, ?_, ?_, ?_, ?_, ?_, ?_⟩
      · simp [rmStep, hq, hf, rmOrder, rmQueueAt, startupTasks]
      · simp [rmStep, hq, rmOrder, rmQueueAt, startupTasks]
      · rw [e1]; exact fun _ => h2 (by omega)
      · rw [e2]; exact fun _ => h3 (by omega)
      · rw [e4]; exact fun _ => h4 (by omega)
      · rw [e3, e4]; exact hg
    · refine ⟨7, by omega, ?_, ?_, ?_, ?_, ?_, ?_⟩
      · simp [rmStep, hq, hf, rmOrder, rmQueueAt, startupTasks]
      · simp [rmStep, hq, rmOrder, rmQueueAt, startupTasks]
      · rw [e1]; exact fun _ => h2 (by omega)
      · rw [e2]; exact fun _ => h3 (by omega)
      · rw [e4]; exact fun _ => h4 (by omega)
      · rw [e3, e4]; exact hg
    · have hs : rmStep s = s := by simp [rmStep, hq, rmOrder, rmQueueAt, startupTasks]
      rw [hs]
      exact ⟨7, by omega, hf, hq, h2, h3, h4, hg⟩

lemma rmInvK_run (s : RMState) (evs : List RMEvent) (h : ∃ k, rmInvK k s) :
    ∃ k, rmInvK k (rmRun s evs) := by
  induction evs generalizing s with
  | nil => exact h
  | cons e rest ih =>
    obtain ⟨k, hk⟩ := h
    exact ih (rmEvent s e) (rmInvK_event k s hk e)

lemma rmEvent_ctu_of_ne (s : RMState) (e : RMEvent) (hne : e ≠ .yoCTUReady) :
    (rmEvent s e).ctu_ready = s.ctu_ready := by
  cases e with
  | yoCTUReady => exact absurd rfl hne
  | yoFEDMReady => rfl
  | yoTimeGood => rfl
  | yoTimeNoGood => rfl
  | workerStep => exact (rmStep_flags s).1

lemma rmEvent_fedm_of_ne (s : RMState) (e : RMEvent) (hne : e ≠ .yoFEDMReady) :
    (rmEvent s e).fedm_ready = s.fedm_ready := by
  cases e with
  | yoCTUReady => rfl
  | yoFEDMReady => exact absurd rfl hne
  | yoTimeGood => rfl
  | yoTimeNoGood => rfl
  | workerStep => exact (rmStep_flags s).2.1

lemma rmEvent_ever_of_ne (s : RMState) (e : RMEvent) (hne : e ≠ .yoTimeGood) :
    (rmEvent s e).everGoodRaised = s.everGoodRaised := by
  cases e with
  | yoCTUReady => rfl
  | yoFEDMReady => rfl
  | yoTimeGood => exact absurd rfl hne
  | yoTimeNoGood => rfl
  | workerStep => exact (rmStep_flags s).2.2.2

lemma rmEvent_good_of_ne (s : RMState) (e : RMEvent) (hg : e ≠ .yoTimeGood)
    (hng : e ≠ .yoTimeNoGood) : (rmEvent s e).good_time = s.good_time := by
  cases e with
  | yoCTUReady => rfl
  | yoFEDMReady => rfl
  | yoTimeGood => exact absurd rfl hg
  | yoTimeNoGood => exact absurd rfl hng
  | workerStep => exact (rmStep_flags s).2.2.1

/-- The CTU-ready flag is true only if it started true or a
`yo_CTU_is_ready` call occurred. -/
lemma rmRun_ctu_origin (s : RMState) (evs : List RMEvent) :
    (rmRun s evs).ctu_ready = true → s.ctu_ready = true ∨ RMEvent.yoCTUReady ∈ evs := by
  induction evs generalizing s with
  | nil => exact fun h => .inl h
  | cons e rest ih =>
    intro h
    rcases ih (rmEvent s e) h with h' | h'
    · by_cases he : e = .yoCTUReady
      · exact .inr (by simp [he])
      · rw [rmEvent_ctu_of_ne s e he] at h'
        exact .inl h'
    · exact .inr (List.mem_cons_of_mem _ h')

lemma rmRun_fedm_origin (s : RMState) (evs : List RMEvent) :
    (rmRun s evs).fedm_ready = true → s.fedm_ready = true ∨ RMEvent.yoFEDMReady ∈ evs := by
  induction evs generalizing s with
  | nil => exact fun h => .inl h
  | cons e rest ih =>
    intro h
    rcases ih (rmEvent s e) h with h' | h'
    · by_cases he : e = .yoFEDMReady
      · exact .inr (by simp [he])
      · rw [rmEvent_fedm_of_ne s e he] at h'
        exact .inl h'
    · exact .inr (List.mem_cons_of_mem _ h')

/-- The history variable is true only if it started true or good-time was
raised at least once. -/
lemma rmRun_ever_origin (s : RMState) (evs : List RMEvent) :
    (rmRun s evs).everGoodRaised = true →
      s.everGoodRaised = true ∨ RMEvent.yoTimeGood ∈ evs := by
  induction evs generalizing s with
  | nil => exact fun h => .inl h
  | cons e rest ih =>
    intro h
    rcases ih (rmEvent s e) h with h' | h'
    · by_cases he : e = .yoTimeGood
      · exact .inr (by simp [he])
      · rw [rmEvent_ever_of_ne s e he] at h'
        exact .inl h'
    · exact .inr (List.mem_cons_of_mem _ h')

lemma rmRun_ctu_mono (s : RMState) (evs : List RMEvent) (h : s.ctu_ready = true) :
    (rmRun s evs).ctu_ready = true := by
  induction evs generalizing s with
  | nil => exact h
  | cons e rest ih =>
    refine ih (rmEvent s e) ?_
    by_cases he : e = .yoCTUReady
    · subst he; rfl
    · rw [rmEvent_ctu_of_ne s e he]; exact h

lemma rmRun_fedm_mono (s : RMState) (evs : List RMEvent) (h : s.fedm_ready = true) :
    (rmRun s evs).fedm_ready = true := by
  induction evs generalizing s with
  | nil => exact h
  | cons e rest ih =>
    refine ih (rmEvent s e) ?_
    by_cases he : e = .yoFEDMReady
    · subst he; rfl
    · rw [rmEvent_fedm_of_ne s e he]; exact h

lemma rmRun_good_mono (s : RMState) (evs : List RMEvent)
    (hnf : RMEvent.yoTimeNoGood ∉ evs) (h : s.good_time = true) :
    (rmRun s evs).good_time = true := by
  induction evs generalizing s with
  | nil => exact h
  | cons e rest ih =>
    have hne : e ≠ .yoTimeNoGood := fun hc => hnf (by simp [hc])
    have hnf' : RMEvent.yoTimeNoGood ∉ rest := fun hc => hnf (List.mem_cons_of_mem _ hc)
    refine ih (rmEvent s e) hnf' ?_
    by_cases he : e = .yoTimeGood
    · subst he; rfl
    · rw [rmEvent_good_of_ne s e he hne]; exact h

lemma rmRun_ctu_raised (s : RMState) (evs : List RMEvent)
    (h : RMEvent.yoCTUReady ∈ evs) : (rmRun s evs).ctu_ready = true := by
  induction evs generalizing s with
  | nil => simp at h
  | cons e rest ih =>
    rcases List.mem_cons.mp h with he | hrest
    · have hthis : (rmEvent s e).ctu_ready = true := by rw [← he]; rfl
      show (rmRun (rmEvent s e) rest).ctu_ready = true
      exact rmRun_ctu_mono (rmEvent s e) rest hthis
    · exact ih (rmEvent s e) hrest

lemma rmRun_fedm_raised (s : RMState) (evs : List RMEvent)
    (h : RMEvent.yoFEDMReady ∈ evs) : (rmRun s evs).fedm_ready = true := by
  induction evs generalizing s with
  | nil => simp at h
  | cons e rest ih =>
    rcases List.mem_cons.mp h with he | hrest
    · have hthis : (rmEvent s e).fedm_ready = true := by rw [← he]; rfl
      show (rmRun (rmEvent s e) rest).fedm_ready = true
      exact rmRun_fedm_mono (rmEvent s e) rest hthis
    · exact ih (rmEvent s e) hrest

lemma rmRun_good_raised (s : RMState) (evs : List RMEvent)
    (hnf : RMEvent.yoTimeNoGood ∉ evs) (h : RMEvent.yoTimeGood ∈ evs) :
    (rmRun s evs).good_time = true := by
  induction evs generalizing s with
  | nil => simp at h
  | cons e rest ih =>
    have hnf' : RMEvent.yoTimeNoGood ∉ rest := fun hc => hnf (List.mem_cons_of_mem _ hc)
    rcases List.mem_cons.mp h with he | hrest
    · have hthis : (rmEvent s e).good_time = true := by rw [← he]; rfl
      show (rmRun (rmEvent s e) rest).good_time = true
      exact rmRun_good_mono (rmEvent s e) rest hnf' hthis
    · exact ih (rmEvent s e) hnf' hrest

/-- With all three flags up, one worker step completes the next pending
task. -/
lemma rmStep_progress (k : Nat) (s : RMState) (hinv : rmInvK k s)
    (hc : s.ctu_ready = true) (hfm : s.fedm_ready = true) (hgd : s.good_time = true)
    (hlt : k < 7) : rmInvK (k + 1) (rmStep s) := by
  obtain ⟨hk, hf, hq, h2, h3, h4, hg⟩ := hinv
  obtain ⟨e1, e2, e3, e4⟩ := rmStep_flags s
  interval_cases k <;>
    refine ⟨by omega,
      by simp [rmStep, hq, hf, hc, hfm, hgd, rmOrder, rmQueueAt, startupTasks],
      by simp [rmStep, hq, hc, hfm, hgd, rmOrder, rmQueueAt, startupTasks],
      by rw [e1]; exact fun _ => hc,
      by rw [e2]; exact fun _ => hfm,
      ?_,
      by rw [e3, e4]; exact hg⟩
  · exact fun h => absurd h (by omega)
  · exact fun h => absurd h (by omega)
  · exact fun h => absurd h (by omega)
  · rw [e4]; exact fun _ => hg hgd
  · rw [e4]; exact fun _ => h4 (by omega)
  · rw [e4]; exact fun _ => h4 (by omega)
  · rw [e4]; exact fun _ => h4 (by omega)

/-- With all three flags up, seven further worker steps drain the whole
startup sequence. -/
lemma rmDrain : ∀ (m k : Nat) (s : RMState), rmInvK k s →
    s.ctu_ready = true → s.fedm_ready = true → s.good_time = true → 7 ≤ k + m →
    rmInvK 7 (rmRun s (List.replicate m .workerStep))
  | 0, k, s, hinv, _, _, _, hkm => by
    have hk7 : k = 7 := by have := hinv.1; omega
    subst hk7
    simpa [rmRun] using hinv
  | m + 1, k, s, hinv, hc, hfm, hgd, hkm => by
    rw [show List.replicate (m + 1) RMEvent.workerStep
          = .workerStep :: List.replicate m .workerStep from rfl]
    show rmInvK 7 (rmRun (rmStep s) (List.replicate m .workerStep))
    obtain ⟨ef1, ef2, ef3, _⟩ := rmStep_flags s
    by_cases h7 : k = 7
    · subst h7
      have hs : rmStep s = s := by
        simp [rmStep, hinv.2.2.1, rmQueueAt, rmOrder, startupTasks]
      rw [hs]
      exact rmDrain m 7 s hinv hc hfm hgd (by omega)
    · have hlt : k < 7 := by have := hinv.1; omega
      exact rmDrain m (k + 1) (rmStep s)
        (rmStep_progress k s hinv hc hfm hgd hlt)
        (by rw [ef1]; exact hc) (by rw [ef2]; exact hfm) (by rw [ef3]; exact hgd)
        (by omega)

lemma startCTU_mem_take (k : Nat) (hk : k ≤ 7)
    (h : RMTask.start_CTU ∈ rmOrder.take k) : k = 7 := by
  interval_cases k <;> revert h <;> decide

lemma count_startCTU_take (k : Nat) (hk : k ≤ 7) :
    (rmOrder.take k).count RMTask.start_CTU ≤ 1 := by
  interval_cases k <;> decide

/-- C4.  For every finite interleaving `evs` of setter calls and worker
steps starting from the freshly constructed coordinator: the start-CTU
task fires at most once; the completed tasks are always a prefix of the
fixed order queue-startup → wait-CTU-ready → wait-FEDM-ready →
wait-good-time → start-timekeeper → start-data-collector → start-CTU
(so the steps execute strictly in that order); if start-CTU has fired
then each of the three flags was raised at least once in `evs`; and
conversely, for any interleaving of raises (with no good-time lowering)
containing all three raises, seven further worker steps make start-CTU
fire exactly once. -/
theorem C4_conjunction_gate (evs : List RMEvent) :
    ((rmRun rmInit evs).fired.count .start_CTU ≤ 1) ∧
    (∃ k, k ≤ 7 ∧ (rmRun rmInit evs).fired = rmOrder.take k) ∧
    (RMTask.start_CTU ∈ (rmRun rmInit evs).fired →
      RMEvent.yoCTUReady ∈ evs ∧ RMEvent.yoFEDMReady ∈ evs ∧
        RMEvent.yoTimeGood ∈ evs) ∧
    (RMEvent.yoTimeNoGood ∉ evs → RMEvent.yoCTUReady ∈ evs →
      RMEvent.yoFEDMReady ∈ evs → RMEvent.yoTimeGood ∈ evs →
      (rmRun rmInit (evs ++ List.replicate 7 .workerStep)).fired.count .start_CTU = 1) := by
  obtain ⟨k, hinv⟩ := rmInvK_run rmInit evs ⟨0, rmInvK_init⟩
  obtain ⟨hk, hf, hq, h2, h3, h4, hg⟩ := hinv
  refine ⟨?_, ⟨k, hk, hf⟩, ?_, ?_⟩
  · rw [hf]; exact count_startCTU_take k hk
  · intro hmem
    rw [hf] at hmem
    have hk7 := startCTU_mem_take k hk hmem
    subst hk7
    refine ⟨?_, ?_, ?_⟩
    · rcases rmRun_ctu_origin rmInit evs (h2 (by omega)) with h | h
      · simp [rmInit] at h
      · exact h
    · rcases rmRun_fedm_origin rmInit evs (h3 (by omega)) with h | h
      · simp [rmInit] at h
      · exact h
    · rcases rmRun_ever_origin rmInit evs (h4 (by omega)) with h | h
      · simp [rmInit] at h
      · exact h
  · intro hnf hc hfm hgd
    have hdrain := rmDrain 7 k (rmRun rmInit evs) ⟨hk, hf, hq, h2, h3, h4, hg⟩
      (rmRun_ctu_raised rmInit evs hc) (rmRun_fedm_raised rmInit evs hfm)
      (rmRun_good_raised rmInit evs hnf hgd) (by omega)
    have happ : rmRun rmInit (evs ++ List.replicate 7 .workerStep)
        = rmRun (rmRun rmInit evs) (List.replicate 7 .workerStep) := by
      simp [rmRun, List.foldl_append]
    rw [happ, hdrain.2.1]
    decide

/-- C4 witness: flags raised in the order FEDM, good-time, CTU, then
seven worker steps: start-CTU fires exactly once. -/
theorem C4_conjunction_gate_witness :
    (rmRun rmInit ([.yoFEDMReady, .yoTimeGood, .yoCTUReady]
        ++ List.replicate 7 .workerStep)).fired.count .start_CTU = 1 :=
  (C4_conjunction_gate [.yoFEDMReady, .yoTimeGood, .yoCTUReady]).2.2.2
    (by decide) (by decide) (by decide) (by decide)

/-! ## gps.py — `GPS_Manager._ensureSats` (satellite-acquisition step)

`_ensureSats` (`src/server/src/gps.py`) waits on the GPS model's
`gotSats` Flag with the fixed ladder of timeouts 5 s / 5 s / 40 s /
300 s, interposing `_hotRestartGPS` / `_warmRestartGPS` /
`_coldRestartGPS`; each restart helper calls the module restart and then
`_initTimeIfNeeded`, which pushes corrected time+position exactly when
the module-vs-system clock delta exceeds ±1 minute.

`flag.py` is not in the source tree; `waitUpF` is modelled from the
spec (§4.1: `waitUp(timeout?) -> bool` "blocks until true or timeout;
returns whether it became true") against a fake clock/flag: the flag
rises at time `riseAt` (`none` = never) and stays up, and time advances
only while waiting, so restarts are instantaneous — the fake-clock
harness the spec's test recipe prescribes.  The clock delta seen by
`_initTimeIfNeeded` is a function of the current fake time, in seconds. -/

/-- The observable actions of `_ensureSats`, each tagged with the fake
clock time (seconds since the step began) at which it happens. -/
inductive GPSAct
  | waitedForSats (startAt : Nat) (timeout : Nat) (got : Bool)
  | hotStart (t : Nat)
  | warmStart (t : Nat)
  | coldStart (t : Nat)
  | initPosTime (t : Nat)
  | waitIndefinitely (t : Nat)
deriving DecidableEq, Repr

/-- Modelled from the spec: `Flag.waitUp(timeout)` against the fake
flag — returns whether the flag came up within the window, and the time
at which the wait ended. -/
def waitUpF (riseAt : Option Nat) (now timeout : Nat) : Bool × Nat :=
  match riseAt with
  | none => (false, now + timeout)
  | some r => if r ≤ now + timeout then (true, max r now) else (false, now + timeout)

/-- Whether the fake `gotSats` flag is up at time `t`. -/
def flagUpAt (riseAt : Option Nat) (t : Nat) : Bool :=
  match riseAt with
  | none => false
  | some r => r ≤ t

/-- `GPS_Manager._initTimeIfNeeded`: push corrected time+position iff the
GPS-vs-system delta exceeds ±1 minute (60 s) in either direction. -/
def initTimeIfNeeded (delta : Nat → Int) (now : Nat) : List GPSAct :=
  if delta now < -60 ∨ 60 < delta now then [.initPosTime now] else []

/-- `GPS_Manager._hotRestartGPS`: hot-restart, then `_initTimeIfNeeded`. -/
def hotRestartGPS (delta : Nat → Int) (now : Nat) : List GPSAct :=
  [.hotStart now] ++ initTimeIfNeeded delta now

/-- `GPS_Manager._warmRestartGPS`: warm-restart, then `_initTimeIfNeeded`. -/
def warmRestartGPS (delta : Nat → Int) (now : Nat) : List GPSAct :=
  [.warmStart now] ++ initTimeIfNeeded delta now

/-- `GPS_Manager._coldRestartGPS`: cold-restart, then `_initTimeIfNeeded`. -/
def coldRestartGPS (delta : Nat → Int) (now : Nat) : List GPSAct :=
  [.coldStart now] ++ initTimeIfNeeded delta now

/-- The outcome of `_ensureSats`: the action trace and, if the step ever
returned, the fake time at which it did (`none` = blocked forever in the
final indefinite `waitUp()`). -/
structure EnsureSatsResult where
  trace : List GPSAct
  endTime : Option Nat
deriving DecidableEq, Repr

/-- `GPS_Manager._ensureSats`: the nested-IF escalation ladder.  `nSats`
is the GPS model's satellite count (`None` until a GPGGA arrives). -/
def ensureSats (nSats : Option Nat) (riseAt : Option Nat) (delta : Nat → Int) :
    EnsureSatsResult :=
  if nSats = none ∨ flagUpAt riseAt 0 = false then
    let r1 := waitUpF riseAt 0 5
    let a1 := [GPSAct.waitedForSats 0 5 r1.1]
    if r1.1 = false then
      let a2 := a1 ++ hotRestartGPS delta r1.2
      let r2 := waitUpF riseAt r1.2 5
      let a2 := a2 ++ [GPSAct.waitedForSats r1.2 5 r2.1]
      if r2.1 = false then
        let a3 := a2 ++ warmRestartGPS delta r2.2
        let r3 := waitUpF riseAt r2.2 40
        let a3 := a3 ++ [GPSAct.waitedForSats r2.2 40 r3.1]
        if r3.1 = false then
          let a4 := a3 ++ coldRestartGPS delta r3.2
          let r4 := waitUpF riseAt r3.2 300
          let a4 := a4 ++ [GPSAct.waitedForSats r3.2 300 r4.1]
          if r4.1 = false then
            { trace := a4 ++ [.waitIndefinitely r4.2],
              endTime := match riseAt with
                         | none => none
                         | some r => some (max r r4.2) }
          else { trace := a4, endTime := some r4.2 }
        else { trace := a3, endTime := some r3.2 }
      else { trace := a2, endTime := some r2.2 }
    else { trace := a1, endTime := some r1.2 }
  else { trace := [], endTime := some 0 }

/-- Is an action a restart command? -/
def isRestart : GPSAct → Bool
  | .hotStart _ => true
  | .warmStart _ => true
  | .coldStart _ => true
  | _ => false

lemma initTimeIfNeeded_filter_restart (delta : Nat → Int) (t : Nat) :
    (initTimeIfNeeded delta t).filter (fun a => isRestart a) = [] := by
  unfold initTimeIfNeeded
  split <;> simp [isRestart]

lemma initTimeIfNeeded_mem (delta : Nat → Int) (t u : Nat) :
    GPSAct.initPosTime u ∈ initTimeIfNeeded delta t ↔
      u = t ∧ (delta t < -60 ∨ 60 < delta t) := by
  unfold initTimeIfNeeded
  split <;> rename_i hcond <;> simp [hcond]

/-- C5.  With satellites never acquired (the fake `gotSats` flag never
rises), `_ensureSats` produces exactly this trace: a failed 5 s wait
starting at t=0, one hot-restart at t=5, a failed 5 s wait, one
warm-restart at t=10, a failed 40 s wait, one cold-restart at t=50, a
failed 300 s wait, then the indefinite wait entered at t=350 — never
returning; after each restart, the time-correction (`initPosTime`) is
re-applied exactly when the module clock is off by more than ±60 s at
that moment; and the restart actions are exactly one hot, one warm, one
cold, in that order, at cumulative times 5 s / 10 s / 50 s. -/
theorem C5_escalation_ladder (nSats : Option Nat) (delta : Nat → Int)
    (hflag : flagUpAt none 0 = false) :
    ensureSats nSats none delta =
      { trace := [.waitedForSats 0 5 false] ++
          ([.hotStart 5] ++ initTimeIfNeeded delta 5) ++
          [.waitedForSats 5 5 false] ++
          ([.warmStart 10] ++ initTimeIfNeeded delta 10) ++
          [.waitedForSats 10 40 false] ++
          ([.coldStart 50] ++ initTimeIfNeeded delta 50) ++
          [.waitedForSats 50 300 false] ++ [.waitIndefinitely 350],
        endTime := none } ∧
    (ensureSats nSats none delta).trace.filter (fun a => isRestart a)
      = [.hotStart 5, .warmStart 10, .coldStart 50] ∧
    (∀ u, GPSAct.initPosTime u ∈ (ensureSats nSats none delta).trace ↔
      ((u = 5 ∨ u = 10 ∨ u = 50) ∧ (delta u < -60 ∨ 60 < delta u))) := by
  have htr : ensureSats nSats none delta =
      { trace := [.waitedForSats 0 5 false] ++
          ([.hotStart 5] ++ initTimeIfNeeded delta 5) ++
          [.waitedForSats 5 5 false] ++
          ([.warmStart 10] ++ initTimeIfNeeded delta 10) ++
          [.waitedForSats 10 40 false] ++
          ([.coldStart 50] ++ initTimeIfNeeded delta 50) ++
          [.waitedForSats 50 300 false] ++ [.waitIndefinitely 350],
        endTime := none } := by
    simp [ensureSats, waitUpF, flagUpAt, hotRestartGPS, warmRestartGPS, coldRestartGPS]
  refine ⟨htr, ?_, ?_⟩
  · rw [htr]
    simp only [List.filter_append, initTimeIfNeeded_filter_restart]
    simp [isRestart]
  · intro u
    rw [htr]
    simp only [List.mem_append]
    simp [initTimeIfNeeded_mem]
    constructor
    · rintro ((h | h) | h)
      · exact ⟨Or.inl h.1, h.1 ▸ h.2⟩
      · exact ⟨Or.inr (Or.inl h.1), h.1 ▸ h.2⟩
      · exact ⟨Or.inr (Or.inr h.1), h.1 ▸ h.2⟩
    · rintro ⟨(h | h | h), hd⟩
      · exact Or.inl (Or.inl ⟨h, h ▸ hd⟩)
      · exact Or.inl (Or.inr ⟨h, h ▸ hd⟩)
      · exact Or.inr ⟨h, h ▸ hd⟩

/-- C5 witness: with the module clock 120 s off at every instant, the
full trace including the three re-applied time corrections. -/
theorem C5_escalation_ladder_witness :
    ensureSats none none (fun _ => 120) =
      { trace := [.waitedForSats 0 5 false, .hotStart 5, .initPosTime 5,
          .waitedForSats 5 5 false, .warmStart 10, .initPosTime 10,
          .waitedForSats 10 40 false, .coldStart 50, .initPosTime 50,
          .waitedForSats 50 300 false, .waitIndefinitely 350],
        endTime := none } := by
  rw [(C5_escalation_ladder none (fun _ => 120) (by decide)).1]
  decide

/-! ## gps.py — `GPS_Manager._checkTRAIM` / `_checkTime` (time quality)

`_checkTRAIM` runs on every `PDMETRAIM` issue and decides whether to
signal `yo_GPS_time_is_good` or `yo_GPS_time_is_nogood` to the run
coordinator; `_checkTime` runs on every `GPRMC` issue and latches the
`badTime` flag from the GPS-vs-system time delta.  `timeError` is a
Python float in the source; it is embedded as an exact rational (the
logic only compares against the constants `0` and `100e-9`). -/

/-- `GPS_Module.TRAIM_SOL_*` constants. -/
def TRAIM_SOL_UNDER_ALARM : Int := 0

/-- See `TRAIM_SOL_UNDER_ALARM`. -/
def TRAIM_SOL_OVER_ALARM : Int := 1

/-- See `TRAIM_SOL_UNDER_ALARM`. -/
def TRAIM_SOL_UNKNOWN : Int := 2

/-- `GPS_Module.TRAIM_VALID_NO`. -/
def TRAIM_VALID_NO : Int := 0

/-- `GPS_Module.TRAIM_VALID_YES`. -/
def TRAIM_VALID_YES : Int := 1

/-- The parsed fields of a PDMETRAIM record that `_checkTRAIM` reads. -/
structure TraimRec where
  solutNum : Int
  validNum : Int
  nBadSats : Int
  timeError : ℚ
deriving DecidableEq, Repr

/-- `GPS_Manager._checkTime`, reduced to its effect on the `badTime`
flag: raised iff the GPS-vs-system delta (seconds) exceeds ±10 s. -/
def checkTime (gpsDelta : ℚ) : Bool :=
  if gpsDelta < -10 then true
  else if 10 < gpsDelta then true
  else false

/-- What `_checkTRAIM` does with one issue. -/
inductive TraimOutcome
  | ignoredWrongTitle
  | typeError
  | signaled (good : Bool) (askedReenableTRAIM : Bool)
deriving DecidableEq, Repr

/-- `GPS_Manager._checkTRAIM` from gps.py.  `good_TRAIM` starts `true`;
the `solutNum` examination only logs; `validNum = TRAIM_VALID_NO` clears
it (and requests re-enabling TRAIM unless that is already underway) —
note an *unrecognized* validity code is only logged and leaves
`good_TRAIM` true; all satellites removed (`nBadSats > 0` and
`nBadSats ≥ nSats`) clears it — when `nSats` is `None` and
`nBadSats > 0`, the Python 3 comparison `nBadSats >= None` raises
`TypeError`; a zero or >100 ns self-reported `timeError` clears it.
Finally `good_TRAIM ∧ ¬badTime` selects good vs no-good. -/
def checkTRAIM (title : String) (rec : TraimRec) (nSats : Option Int)
    (badTime : Bool) (turningOnTRAIM : Bool) : TraimOutcome :=
  if title ≠ "PDMETRAIM" then .ignoredWrongTitle
  else
    let good1 := true
    let good2 := if rec.validNum = TRAIM_VALID_NO then false else good1
    let reenable := rec.validNum = TRAIM_VALID_NO ∧ ¬ turningOnTRAIM
    if rec.nBadSats > 0 ∧ nSats = none then .typeError
    else
      let good3 :=
        match nSats with
        | some n => if rec.nBadSats > 0 ∧ rec.nBadSats ≥ n then false else good2
        | none => good2
      let good4 := if rec.timeError = 0 then false else good3
      let good5 := if rec.timeError > 100 / 1000000000 then false else good4
      .signaled (good5 && !badTime) (decide reenable)

/-- A TRAIM record whose validity code is the unrecognized value 2. -/
def c6Rec : TraimRec :=
  { solutNum := 0, validNum := 2, nBadSats := 0, timeError := 50 / 1000000000 }

/-- C6 counterexample.  A TRAIM record that is *not* marked valid
(`validNum = 2`, an unrecognized code — in particular `≠ TRAIM_VALID_YES`)
still makes the manager signal GPS-time-good when the other checks pass,
because the code only clears `good_TRAIM` on `TRAIM_VALID_NO`; the claim
says the conjunction requires "the TRAIM record is marked valid", under
which this record must signal no-good. -/
theorem C6_counterexample_unrecognized_valid :
    c6Rec.validNum ≠ TRAIM_VALID_YES ∧
    checkTRAIM "PDMETRAIM" c6Rec (some 8) false false = .signaled true false := by
  constructor
  · decide
  · norm_num [checkTRAIM, c6Rec, TRAIM_VALID_NO]

/-- C6 (amended).  On every PDMETRAIM update, the signal to the run
coordinator is good iff: the record is **not marked invalid**
(`validNum ≠ 0`; an unrecognized code is treated as valid), AND not
(`nBadSats > 0` with all received satellites removed, `nBadSats ≥ nSats`),
AND the self-reported uncertainty is nonzero and at most 100 ns, AND the
separately tracked time-delta check passed on the last GPRMC message
(within ±10 s); when any conjunct fails it signals GPS-time-no-good. -/
lemma checkTime_false_iff (d : ℚ) :
    checkTime d = false ↔ (-10 ≤ d ∧ d ≤ 10) := by
  unfold checkTime
  split_ifs with h1 h2
  · simp only [Bool.true_eq_false, false_iff]
    rintro ⟨ha, _⟩
    linarith
  · simp only [Bool.true_eq_false, false_iff]
    rintro ⟨_, hb2⟩
    linarith
  · simp only [true_iff]
    exact ⟨by linarith, by linarith⟩

theorem C6_goodtime_derivation (rec : TraimRec) (n : Int) (gpsDelta : ℚ)
    (tot : Bool) :
    checkTRAIM "PDMETRAIM" rec (some n) (checkTime gpsDelta) tot =
      .signaled
        (decide (rec.validNum ≠ TRAIM_VALID_NO ∧
                 ¬ (rec.nBadSats > 0 ∧ rec.nBadSats ≥ n) ∧
                 rec.timeError ≠ 0 ∧ rec.timeError ≤ 100 / 1000000000 ∧
                 -10 ≤ gpsDelta ∧ gpsDelta ≤ 10))
        (decide (rec.validNum = TRAIM_VALID_NO ∧ ¬ tot)) := by
  have hct := checkTime_false_iff gpsDelta
  have ht : (("PDMETRAIM" : String) ≠ "PDMETRAIM") = False := by simp
  have hb0 : (rec.nBadSats > 0 ∧ (some n : Option Int) = none) = False := by simp
  simp only [checkTRAIM, ht, hb0, if_false]
  congr 1
  rw [Bool.eq_iff_iff]
  by_cases hv : rec.validNum = TRAIM_VALID_NO <;>
    by_cases hb : rec.nBadSats > 0 ∧ rec.nBadSats ≥ n <;>
    by_cases hz : rec.timeError = 0 <;>
    by_cases hh : rec.timeError > 100 / 1000000000 <;>
    by_cases hbt : checkTime gpsDelta = false <;>
    simp only [hv, hb, hz, hh, hbt, if_true, if_false, eq_self_iff_true,
      not_true, not_false_iff, if_neg, if_pos, decide_eq_true_eq,
      Bool.and_eq_true, Bool.not_eq_true'] <;>
    simp_all [not_lt]

/-! ## publisher.py — `Publisher`

The publish/subscribe bus (`src/server/src/publisher.py`).  The
`_subscriptions` dict (title → list of subscriber callbacks) is an
insertion-ordered association list; callbacks are opaque and embedded as
`Nat` identifiers.  `publish` delivers the issue to
`_subscriptions[title] + _subscriptions['__ALL__']` in list order;
`publishDeliveries` returns that invocation sequence. -/

/-- The state of a `Publisher`. -/
structure PublisherSt where
  subscriptions : List (String × List Nat)
deriving DecidableEq, Repr

/-- Dict lookup `_subscriptions[title]`. -/
def lookupTitle : List (String × List Nat) → String → Option (List Nat)
  | [], _ => none
  | (k, l) :: rest, t => if k = t then some l else lookupTitle rest t

/-- Dict assignment `_subscriptions[title] = v`. -/
def setTitle : List (String × List Nat) → String → List Nat → List (String × List Nat)
  | [], t, v => [(t, v)]
  | (k, l) :: rest, t, v =>
    if k = t then (t, v) :: rest else (k, l) :: setTitle rest t v

namespace PublisherSt

/-- `Publisher.hasTitle`: initialize the title's subscriber list to `[]`
if absent. -/
def hasTitle (p : PublisherSt) (title : String) : PublisherSt :=
  match lookupTitle p.subscriptions title with
  | some _ => p
  | none => { subscriptions := setTitle p.subscriptions title [] }

/-- `Publisher.subscribe`: append the address to the title's list.  The
`none` branch is unreachable after `hasTitle`. -/
def subscribe (p : PublisherSt) (address : Nat) (title : String) : PublisherSt :=
  let p1 := p.hasTitle title
  match lookupTitle p1.subscriptions title with
  | some l => { subscriptions := setTitle p1.subscriptions title (l ++ [address]) }
  | none => p1

/-- `Publisher.subscribeAll`: subscribe to the wildcard title. -/
def subscribeAll (p : PublisherSt) (address : Nat) : PublisherSt :=
  p.subscribe address "__ALL__"

/-- `Publisher.publish`: the sequence of subscriber invocations one
publish of an issue with this title performs, in order. -/
def publishDeliveries (p : PublisherSt) (title : String) : List Nat :=
  let p1 := (p.hasTitle title).hasTitle "__ALL__"
  (lookupTitle p1.subscriptions title).getD [] ++
    (lookupTitle p1.subscriptions "__ALL__").getD []

end PublisherSt

lemma lookupTitle_set_self (l : List (String × List Nat)) (t : String) (v : List Nat) :
    lookupTitle (setTitle l t v) t = some v := by
  induction l with
  | nil => simp [setTitle, lookupTitle]
  | cons p rest ih =>
    obtain ⟨k, w⟩ := p
    by_cases h : k = t <;> simp [setTitle, lookupTitle, h, ih]

lemma lookupTitle_set_other (l : List (String × List Nat)) (t t' : String)
    (v : List Nat) (h : t' ≠ t) :
    lookupTitle (setTitle l t v) t' = lookupTitle l t' := by
  induction l with
  | nil => simp [setTitle, lookupTitle, Ne.symm h]
  | cons p rest ih =>
    obtain ⟨k, w⟩ := p
    by_cases hk : k = t
    · subst hk
      simp [setTitle, lookupTitle, Ne.symm h]
    · simp [setTitle, lookupTitle, hk, ih]

lemma hasTitle_lookup_self (p : PublisherSt) (t : String) :
    lookupTitle (p.hasTitle t).subscriptions t =
      some ((lookupTitle p.subscriptions t).getD []) := by
  unfold PublisherSt.hasTitle
  cases h : lookupTitle p.subscriptions t with
  | some l => simp [h]
  | none => simp [h, lookupTitle_set_self]

lemma hasTitle_lookup_other (p : PublisherSt) (t t' : String) (h : t' ≠ t) :
    lookupTitle (p.hasTitle t).subscriptions t' = lookupTitle p.subscriptions t' := by
  unfold PublisherSt.hasTitle
  cases hh : lookupTitle p.subscriptions t with
  | some l => simp [hh]
  | none => simp [hh, lookupTitle_set_other _ _ _ _ h]

lemma subscribe_lookup_self (p : PublisherSt) (c : Nat) (t : String) :
    lookupTitle (p.subscribe c t).subscriptions t =
      some ((lookupTitle p.subscriptions t).getD [] ++ [c]) := by
  simp only [PublisherSt.subscribe]
  rw [hasTitle_lookup_self]
  simp [lookupTitle_set_self]

lemma subscribe_lookup_other (p : PublisherSt) (c : Nat) (t t' : String) (h : t' ≠ t) :
    lookupTitle (p.subscribe c t).subscriptions t' = lookupTitle p.subscriptions t' := by
  simp only [PublisherSt.subscribe]
  rw [hasTitle_lookup_self]
  simp only []
  rw [lookupTitle_set_other _ _ _ _ h, hasTitle_lookup_other _ _ _ h]

lemma hasTitle_of_present (p : PublisherSt) (t : String)
    (h : lookupTitle p.subscriptions t ≠ none) : p.hasTitle t = p := by
  unfold PublisherSt.hasTitle
  cases hh : lookupTitle p.subscriptions t with
  | some l => rfl
  | none => exact absurd hh h

/-- C10 (amended).  For every publisher state, callback `c` and title
`t ≠ "__ALL__"`: after registering `c` via `subscribe(c, t)` and via
`subscribeAll(c)`, a single publish of an issue with title `t` delivers
first to the per-title list (ending with `c`) and then to the wildcard
list (ending with `c`); in particular, if `c` was not previously
registered under either, `c` is invoked exactly twice — once per pass —
since `publish` concatenates the two lists with no deduplication.  (For
`t = "__ALL__"` the two passes coincide and `c` is invoked four times:
see the counterexample.) -/
theorem C10_double_delivery (p : PublisherSt) (c : Nat) (t : String)
    (ht : t ≠ "__ALL__") :
    ((p.subscribe c t).subscribeAll c).publishDeliveries t =
      ((lookupTitle p.subscriptions t).getD [] ++ [c]) ++
      ((lookupTitle p.subscriptions "__ALL__").getD [] ++ [c]) ∧
    (c ∉ (lookupTitle p.subscriptions t).getD [] →
     c ∉ (lookupTitle p.subscriptions "__ALL__").getD [] →
     (((p.subscribe c t).subscribeAll c).publishDeliveries t).count c = 2) := by
  have hAll : ("__ALL__" : String) ≠ t := fun hc => ht hc.symm
  have h1 : lookupTitle ((p.subscribe c t).subscribeAll c).subscriptions t =
      some ((lookupTitle p.subscriptions t).getD [] ++ [c]) := by
    unfold PublisherSt.subscribeAll
    rw [subscribe_lookup_other _ _ _ _ ht, subscribe_lookup_self]
  have h2 : lookupTitle ((p.subscribe c t).subscribeAll c).subscriptions "__ALL__" =
      some ((lookupTitle p.subscriptions "__ALL__").getD [] ++ [c]) := by
    unfold PublisherSt.subscribeAll
    rw [subscribe_lookup_self, subscribe_lookup_other _ _ _ _ hAll]
  have hmain : ((p.subscribe c t).subscribeAll c).publishDeliveries t =
      ((lookupTitle p.subscriptions t).getD [] ++ [c]) ++
      ((lookupTitle p.subscriptions "__ALL__").getD [] ++ [c]) := by
    have hin : ((p.subscribe c t).subscribeAll c).hasTitle t
        = (p.subscribe c t).subscribeAll c :=
      hasTitle_of_present _ _ (by rw [h1]; simp)
    have hout : ((p.subscribe c t).subscribeAll c).hasTitle "__ALL__"
        = (p.subscribe c t).subscribeAll c :=
      hasTitle_of_present _ _ (by rw [h2]; simp)
    simp only [PublisherSt.publishDeliveries, hin, hout]
    rw [h1, h2]
    rfl
  refine ⟨hmain, fun hnt hna => ?_⟩
  rw [hmain]
  simp [List.count_append, List.count_eq_zero_of_not_mem hnt,
    List.count_eq_zero_of_not_mem hna, List.count_singleton]

/-- C10 witness: on an empty publisher, subscribing `7` to `"news"` and
to all titles, one publish of a `"news"` issue invokes `7` exactly
twice. -/
theorem C10_double_delivery_witness :
    ((((PublisherSt.mk []).subscribe 7 "news").subscribeAll 7).publishDeliveries
        "news").count 7 = 2 :=
  (C10_double_delivery (PublisherSt.mk []) 7 "news" (by decide)).2
    (by decide) (by decide)

/-- C10 counterexample.  The wildcard name is itself a legal title: with
`t = "__ALL__"`, registering `c` via `subscribe(c, t)` and
`subscribeAll(c)` puts `c` twice in the one wildcard list, and a publish
with title `"__ALL__"` concatenates that list with itself — `c` is
invoked four times, not twice as the claim states for every title. -/
theorem C10_counterexample_wildcard_title :
    ((((PublisherSt.mk []).subscribe 0 "__ALL__").subscribeAll 0).publishDeliveries
        "__ALL__").count 0 = 4 := by decide

end COSMICi
